import Mathlib

/-!
Verification development for the cortx-test QA harness sources:
`libs/csm/rest/csm_rest_s3user.py` (REST wrappers for S3 account management),
`libs/ras/ras_core_lib.py` (remote-operations helpers), and
`tests/s3/test_support_bundle.py` (support-bundle test driver).

The Python sources are shallowly embedded: external effects (the REST API,
remote command execution, service-status queries, remote file contents) are
oracle parameters, exceptions are `Except`, and Python string manipulation is
modelled executably over `List Char` so that concrete runs evaluate by
`decide` / `rfl`.
-/

instance {ε α : Type} [DecidableEq ε] [DecidableEq α] : DecidableEq (Except ε α) := fun x y =>
  match x, y with
  | .ok a, .ok b =>
    if h : a = b then isTrue (by rw [h]) else isFalse (by intro hc; cases hc; exact h rfl)
  | .error a, .error b =>
    if h : a = b then isTrue (by rw [h]) else isFalse (by intro hc; cases hc; exact h rfl)
  | .ok _, .error _ => isFalse (by intro hc; cases hc)
  | .error _, .ok _ => isFalse (by intro hc; cases hc)

/-! ## Python string primitives, modelled executably over `List Char` -/

/-- Characters of a Python `str`; file contents and command-output lines are
modelled this way so substring search and parsing compute in the kernel. -/
abbrev PyStr := List Char

/-- Python substring containment `pat in s`. -/
def infixOf (pat : PyStr) : PyStr → Bool
  | [] => pat.isEmpty
  | c :: rest => pat.isPrefixOf (c :: rest) || infixOf pat rest

/-- Python `s.split(sep)` for a one-character separator. -/
def splitOnChar (sep : Char) : PyStr → List PyStr
  | [] => [[]]
  | c :: rest =>
    let r := splitOnChar sep rest
    if c == sep then [] :: r
    else ((c :: r.headD []) :: r.tail)

/-- Whitespace stripped by Python `str.strip()`. -/
def isPySpace (c : Char) : Bool :=
  c == ' ' || c == '\t' || c == '\n' || c == '\r' || c == '\x0b' || c == '\x0c'

/-- Python `s.strip()`. -/
def pyStrip (s : PyStr) : PyStr :=
  ((s.dropWhile isPySpace).reverse.dropWhile isPySpace).reverse

/-- Python `s.rstrip(cut)` for a one-character cut set. -/
def pyRstrip (cut : Char) (s : PyStr) : PyStr :=
  (s.reverse.dropWhile (· == cut)).reverse

/-- Value of a nonempty all-digit string, `none` otherwise. -/
def digitsVal : PyStr → Option Nat
  | [] => none
  | l => l.foldl (fun acc c =>
      match acc with
      | none => none
      | some n => if c.isDigit then some (n * 10 + (c.toNat - 48)) else none)
      (some 0)

/-- Python `int(s)`: surrounding whitespace and an optional sign are accepted;
anything else is a `ValueError` (`none`). -/
def parseInt (s : PyStr) : Option Int :=
  match pyStrip s with
  | '-' :: rest => (digitsVal rest).map (fun n => -(n : Int))
  | '+' :: rest => (digitsVal rest).map (fun n => (n : Int))
  | other => (digitsVal other).map (fun n => (n : Int))

/-! ## Exceptions and error codes (`commons.errorcodes`, `commons.exceptions`) -/

/-- Modelled from the spec: the two `commons.errorcodes` codes the wrappers
raise - the authentication error used by the REST-call handlers and the
verification error used by the verify/payload helpers. -/
inductive ErrCode where
  | CSM_REST_AUTHENTICATION_ERROR
  | CSM_REST_VERIFICATION_FAILED
deriving DecidableEq, Repr

/-- First positional argument of a raised exception (`error.args[0]`): either a
message string or, for the domain exception, the error code it was built with. -/
inductive PyArg where
  | str (s : String)
  | code (c : ErrCode)
deriving DecidableEq, Repr

/-- Modelled from the spec: `CTException` is the domain exception carrying an
error code (plus the wrapped original `args[0]`). -/
structure CTException where
  code : ErrCode
  arg : PyArg
deriving DecidableEq, Repr

/-- A raised Python exception, as far as the embedded code distinguishes them. -/
inductive PyExc where
  | ct (code : ErrCode) (arg : PyArg)
  | keyError (k : String)
  | nameError (msg : String)
  | typeError (msg : String)
  | valueError (msg : String)
  | indexError
  | other (msg : String)
deriving DecidableEq, Repr

/-- `error.args[0]` of a raised exception; for `CTException(code, arg)` the
first argument is the code. -/
def PyExc.args0 : PyExc → PyArg
  | .ct c _ => .code c
  | .keyError k => .str k
  | .nameError m => .str m
  | .typeError m => .str m
  | .valueError m => .str m
  | .indexError => .str "list index out of range"
  | .other m => .str m

/-! ## JSON values, REST responses and requests -/

/-- A flat string-valued JSON object (account payloads and account entries). -/
abbrev SDict := List (String × String)

/-- A JSON value as the embedded code consumes them: a string, or an array of
flat objects (the `s3_accounts` / `iam_users` lists). -/
inductive JVal where
  | str (s : String)
  | arr (l : List SDict)
deriving DecidableEq, Repr

/-- A decoded JSON response body. -/
abbrev Dict := List (String × JVal)

/-- Python `k in d` on a decoded JSON object. -/
def hasKey (d : Dict) (k : String) : Bool :=
  d.any (fun kv => kv.1 == k)

/-- Python `d[k]` on a decoded JSON object: `KeyError` when absent. -/
def getItem (d : Dict) (k : String) : Except PyExc JVal :=
  match d.lookup k with
  | some v => .ok v
  | none => .error (.keyError k)

/-- Python `k in d` on a flat payload dict. -/
def hasKeyS (d : SDict) (k : String) : Bool :=
  d.any (fun kv => kv.1 == k)

/-- Python `d[k]` on a flat payload dict. -/
def getItemS (d : SDict) (k : String) : Except PyExc String :=
  match d.lookup k with
  | some v => .ok v
  | none => .error (.keyError k)

/-- Python `len(v)` on a JSON value. -/
def pyLen : JVal → Nat
  | .str s => s.length
  | .arr l => l.length

/-- A `requests` response: its truthiness (`bool(response)`), status code and
the result of `.json()`. -/
structure Response where
  ok : Bool
  status_code : Nat
  json : Except PyExc Dict
deriving DecidableEq, Repr

/-- One invocation of `self.restapi.rest_call(verb, endpoint=..., data=...)`. -/
structure RestCall where
  verb : String
  endpoint : String
  data : Option SDict
deriving DecidableEq, Repr

/-- The REST API under test, an oracle from request to response-or-exception. -/
abbrev RestApi := RestCall → Except PyExc Response

/-- The `self.config` entries `RestS3user` reads. -/
structure CsmConfig where
  s3accounts_endpoint : String
  test_s3account_password : String
  s3account_user_username : String
  s3account_user_email : String
  s3account_user_password : String
deriving DecidableEq, Repr

/-- Modelled from the spec: `commons.constants.Rest` values - field names
`access_key`, `secret_key`, `account_name`, `account_email` and status codes
200/400 are listed in the interface section of the spec. -/
def SUCCESS_STATUS : Nat := 200

/-- Modelled from the spec: the 400 status code. -/
def BAD_REQUEST : Nat := 400

/-- Modelled from the spec: `const.ACCESS_KEY`. -/
def ACCESS_KEY : String := "access_key"

/-- Modelled from the spec: `const.SECRET_KEY`. -/
def SECRET_KEY : String := "secret_key"

/-- Modelled from the spec: `const.ACC_NAME`. -/
def ACC_NAME : String := "account_name"

/-- Modelled from the spec: `const.ACC_EMAIL`. -/
def ACC_EMAIL : String := "account_email"

/-- Modelled from the spec: `const.S3_ACCOUNTS`, the list key of the GET
response (subscripted literally as `"s3_accounts"` in the source). -/
def S3_ACCOUNTS : String := "s3_accounts"

/-! ## `RestS3user` (libs/csm/rest/csm_rest_s3user.py) -/

/-- `RestS3user.edit_user_payload`: the five recognized payload types and their
patch dicts; unrecognized types give `None`.  The body is total, so its
`except` clause is dead code and the embedding is a plain function. -/
def edit_user_payload (cfg : CsmConfig) (payload_type : String) : Option SDict :=
  let payload_values : List (String × SDict) :=
    [("valid", [("password", cfg.test_s3account_password), ("reset_access_key", "true")]),
     ("unchanged_access",
       [("password", cfg.test_s3account_password), ("reset_access_key", "false")]),
     ("only_reset_access_key", [("reset_access_key", "true")]),
     ("only_password", [("password", cfg.test_s3account_password)]),
     ("no_payload", [])]
  match payload_values.lookup payload_type with
  | none => none
  | some v => some v

/-- Outcome of one `create_s3_account` invocation: the value returned or the
`CTException` raised, the REST calls issued, and the final value of
`self.recently_created_s3_account_user`. -/
structure S3AccountOutcome where
  result : Except CTException Response
  calls : List RestCall
  recently : Option SDict
deriving DecidableEq, Repr

/-- The body of `create_s3_account` once the payload step has finished: store
the payload in `recently_created_s3_account_user`, POST it to the s3accounts
endpoint, and wrap any exception into
`CTException(CSM_REST_AUTHENTICATION_ERROR, error.args[0])`.
(The `save_new_user` config update is an external side effect with no bearing
on the returned value and is not modelled.) -/
def create_s3_account_given (cfg : CsmConfig) (api : RestApi)
    (payloadRes : Except PyExc (Option SDict) × List RestCall) : S3AccountOutcome :=
  match payloadRes with
  | (.error e, calls) =>
    { result := .error ⟨.CSM_REST_AUTHENTICATION_ERROR, e.args0⟩
      calls := calls, recently := none }
  | (.ok user_data, calls) =>
    let call : RestCall :=
      { verb := "post", endpoint := cfg.s3accounts_endpoint, data := user_data }
    match api call with
    | .ok r => { result := .ok r, calls := calls ++ [call], recently := user_data }
    | .error e =>
      { result := .error ⟨.CSM_REST_AUTHENTICATION_ERROR, e.args0⟩
        calls := calls ++ [call], recently := user_data }

/-- The `except` clause of `create_payload_for_new_s3_account`: any exception
from the body is re-raised as
`CTException(CSM_REST_VERIFICATION_FAILED, error.args[0])`. -/
def wrap_payload_exc (p : Except PyExc (Option SDict) × List RestCall) :
    Except PyExc (Option SDict) × List RestCall :=
  match p with
  | (.error e, calls) => (.error (.ct .CSM_REST_VERIFICATION_FAILED e.args0), calls)
  | okRes => okRes

/-- The try-body of `RestS3user.create_payload_for_new_s3_account`.  The two
`int(time.time())` samples are the parameters `nowN` and `nowE`; the
`duplicate` branch re-enters `create_s3_account()` (default `user_type`
`"valid"`), made explicit by the `fuel` bound on that recursion; a user type
matching no branch reaches the final dict with `user_name` unbound, raising
`UnboundLocalError` (a `NameError`). -/
def create_payload_body (cfg : CsmConfig) (nowN nowE : Nat) (api : RestApi) :
    Nat → String → Except PyExc (Option SDict) × List RestCall
  | fuel, user_type =>
    if user_type == "pre-define" then
      (.ok (some [("account_name", cfg.s3account_user_username),
                  ("account_email", cfg.s3account_user_email),
                  ("password", cfg.s3account_user_password)]), [])
    else
      let names : Option (String × String) :=
        if user_type == "valid" then
          some ("test" ++ toString nowN, "test" ++ toString nowE ++ "@seagate.com")
        else none
      if user_type == "duplicate" then
        match fuel with
        | 0 => (.error (.other "recursion depth exceeded"), [])
        | f + 1 =>
          let nested := create_s3_account_given cfg api
            (wrap_payload_exc (create_payload_body cfg nowN nowE api f "valid"))
          match nested.result with
          | .error ct => (.error (.ct ct.code ct.arg), nested.calls)
          | .ok _ => (.ok nested.recently, nested.calls)
      else if user_type == "missing" then
        (.ok (some [("password", cfg.test_s3account_password)]), [])
      else if user_type == "invalid" then
        (.ok (some [("user_name", "xys"),
                    ("mail", "abc@email.com"),
                    ("pass_word", "password")]), [])
      else if user_type == "invalid_for_ui" then
        (.ok (some [("account_name", "*ask%^*&"),
                    ("account_email", "seagate*mail-com"),
                    ("password", "password")]), [])
      else
        match names with
        | some (un, em) =>
          (.ok (some [("account_name", un),
                      ("account_email", em),
                      ("password", cfg.test_s3account_password)]), [])
        | none =>
          (.error (.nameError "local variable user_name referenced before assignment"), [])

/-- `RestS3user.create_payload_for_new_s3_account`: body plus its `except`
clause. -/
def create_payload_for_new_s3_account (fuel : Nat) (cfg : CsmConfig) (nowN nowE : Nat)
    (api : RestApi) (user_type : String) : Except PyExc (Option SDict) × List RestCall :=
  wrap_payload_exc (create_payload_body cfg nowN nowE api fuel user_type)

/-- `RestS3user.create_s3_account`: build the payload, then POST it; any
exception becomes `CTException(CSM_REST_AUTHENTICATION_ERROR, error.args[0])`. -/
def create_s3_account (fuel : Nat) (cfg : CsmConfig) (nowN nowE : Nat) (api : RestApi)
    (user_type : String) (_save_new_user : Bool) : S3AccountOutcome :=
  create_s3_account_given cfg api
    (create_payload_for_new_s3_account fuel cfg nowN nowE api user_type)

/-- `RestS3user.list_all_created_s3account`: GET on the s3accounts endpoint,
wrapping any exception into `CTException(CSM_REST_AUTHENTICATION_ERROR, ...)`. -/
def list_all_created_s3account (cfg : CsmConfig) (api : RestApi) :
    Except CTException Response × List RestCall :=
  let call : RestCall := { verb := "get", endpoint := cfg.s3accounts_endpoint, data := none }
  match api call with
  | .ok r => (.ok r, [call])
  | .error e => (.error ⟨.CSM_REST_AUTHENTICATION_ERROR, e.args0⟩, [call])

/-- `RestS3user.edit_s3_account_user`: PATCH `endpoint/<username>` with the
payload from `edit_user_payload`, wrapping any exception into
`CTException(CSM_REST_AUTHENTICATION_ERROR, ...)`. -/
def edit_s3_account_user (cfg : CsmConfig) (api : RestApi)
    (username : String) (payload : String) : Except CTException Response × List RestCall :=
  let endpoint := cfg.s3accounts_endpoint ++ "/" ++ username
  let patch_payload := edit_user_payload cfg payload
  let call : RestCall := { verb := "patch", endpoint := endpoint, data := patch_payload }
  match api call with
  | .ok r => (.ok r, [call])
  | .error e => (.error ⟨.CSM_REST_AUTHENTICATION_ERROR, e.args0⟩, [call])

/-- `RestS3user.delete_s3_account_user`: DELETE `endpoint/<username>`,
wrapping any exception into `CTException(CSM_REST_AUTHENTICATION_ERROR, ...)`. -/
def delete_s3_account_user (cfg : CsmConfig) (api : RestApi) (username : String) :
    Except CTException Response × List RestCall :=
  let endpoint := cfg.s3accounts_endpoint ++ "/" ++ username
  let call : RestCall := { verb := "delete", endpoint := endpoint, data := none }
  match api call with
  | .ok r => (.ok r, [call])
  | .error e => (.error ⟨.CSM_REST_AUTHENTICATION_ERROR, e.args0⟩, [call])

/-- `RestS3user.edit_s3_account_user_invalid_password`: PATCH
`endpoint/<username>` with the caller-supplied payload, wrapping any exception
into `CTException(CSM_REST_AUTHENTICATION_ERROR, ...)`. -/
def edit_s3_account_user_invalid_password (cfg : CsmConfig) (api : RestApi)
    (username : String) (payload : Option SDict) : Except CTException Response × List RestCall :=
  let endpoint := cfg.s3accounts_endpoint ++ "/" ++ username
  let call : RestCall := { verb := "patch", endpoint := endpoint, data := payload }
  match api call with
  | .ok r => (.ok r, [call])
  | .error e => (.error ⟨.CSM_REST_AUTHENTICATION_ERROR, e.args0⟩, [call])

/-- Re-raise a `CTException` returned by a nested wrapper as the Python
exception it is, so an enclosing `except Exception` clause can catch it. -/
def liftCT {α : Type} (r : Except CTException α) : Except PyExc α :=
  match r with
  | .ok a => .ok a
  | .error ct => .error (.ct ct.code ct.arg)

/-- The `except` clause of the verify helpers: any exception from the body is
re-raised as `CTException(CSM_REST_VERIFICATION_FAILED, error.args[0])`. -/
def wrap_verification_exc {α : Type} (r : Except PyExc α) : Except CTException α :=
  match r with
  | .ok a => .ok a
  | .error e => .error ⟨.CSM_REST_VERIFICATION_FAILED, e.args0⟩

/-- The try-body of `RestS3user.verify_list_s3account_details`: fetch the
account list, check status 200 and the presence of `s3_accounts`; in the
empty-list-or-no-user-expected branch the warning log subscripts
`response["iam_users"]`. -/
def verify_list_body (cfg : CsmConfig) (api : RestApi) (expect_no_user : Bool) :
    Except PyExc Bool := do
  let r ← liftCT (list_all_created_s3account cfg api).1
  if !r.ok || r.status_code != SUCCESS_STATUS then
    return false
  let d ← r.json
  if !(hasKey d S3_ACCOUNTS) then
    return false
  let s3v ← getItem d "s3_accounts"
  if pyLen s3v == 0 || expect_no_user then
    let iam ← getItem d "iam_users"
    let _warned := pyLen iam
    let s3v2 ← getItem d "s3_accounts"
    return (pyLen s3v2 == 0 && expect_no_user)
  else
    match s3v with
    | .arr accounts =>
      return accounts.all (fun key => hasKeyS key ACC_NAME && hasKeyS key ACC_EMAIL)
    | .str s =>
      return s.toList.all (fun c => infixOf ACC_NAME.toList [c] && infixOf ACC_EMAIL.toList [c])

/-- `RestS3user.verify_list_s3account_details`: body plus its `except` clause. -/
def verify_list_s3account_details (cfg : CsmConfig) (api : RestApi) (expect_no_user : Bool) :
    Except CTException Bool :=
  wrap_verification_exc (verify_list_body cfg api expect_no_user)

/-- The `commons.utils.config_utils.verify_json_response` helper is outside
the embedded sources; it is an oracle comparing an account entry with the
expected name/email pairs. -/
abbrev JsonVerifier := SDict → List (String × JVal) → Bool

/-- The try-body of `RestS3user.create_and_verify_s3account`: validate the
user type, create the account, and for `"valid"` check status, the
access/secret-key guard (note the source tests absence of BOTH keys), the
name/email fields, and membership of the new account in the fetched list. -/
def create_and_verify_body (fuel : Nat) (cfg : CsmConfig) (nowN nowE : Nat) (api : RestApi)
    (vjson : JsonVerifier) (user : String) (expect_status_code : Nat) : Except PyExc Bool := do
  if !(user == "valid" || user == "duplicate" || user == "invalid" || user == "missing") then
    return false
  let outcome := create_s3_account fuel cfg nowN nowE api user false
  let r ← liftCT outcome.result
  if user != "valid" then
    return (r.status_code == expect_status_code)
  if !r.ok || r.status_code != expect_status_code then
    return false
  let d ← r.json
  if !(hasKey d ACCESS_KEY) && !(hasKey d SECRET_KEY) then
    return false
  let recently ← match outcome.recently with
    | some ud => Except.ok ud
    | none => Except.error (.typeError "NoneType object is not subscriptable")
  let v1 ← getItem d ACC_NAME
  let r1 ← getItemS recently ACC_NAME
  if v1 != JVal.str r1 then
    return false
  let v2 ← getItem d ACC_EMAIL
  let r2 ← getItemS recently ACC_EMAIL
  if v2 != JVal.str r2 then
    return false
  let lr ← liftCT (list_all_created_s3account cfg api).1
  let ld ← lr.json
  let accv ← getItem ld "s3_accounts"
  let list_acc ← match accv with
    | .arr l => Except.ok l
    | .str _ => Except.error (.typeError "string elements are not account entries")
  let e1 ← getItem d ACC_EMAIL
  let n1 ← getItem d ACC_NAME
  let expected : List (String × JVal) := [(ACC_EMAIL, e1), (ACC_NAME, n1)]
  return list_acc.any (fun actual => vjson actual expected)

/-- `RestS3user.create_and_verify_s3account`: body plus its `except` clause. -/
def create_and_verify_s3account (fuel : Nat) (cfg : CsmConfig) (nowN nowE : Nat) (api : RestApi)
    (vjson : JsonVerifier) (user : String) (expect_status_code : Nat) : Except CTException Bool :=
  wrap_verification_exc
    (create_and_verify_body fuel cfg nowN nowE api vjson user expect_status_code)

/-- The try-body of `RestS3user.edit_and_verify_s3_account_user`: create a
fresh account, PATCH it with the payload type, then check the response shape
for the unchanged-access, non-valid and valid cases (for `"valid"`, the same
absence-of-BOTH-keys guard as in account creation). -/
def edit_and_verify_body (fuel : Nat) (cfg : CsmConfig) (nowN nowE : Nat) (api : RestApi)
    (user_payload : String) : Except PyExc Bool := do
  let outcome := create_s3_account fuel cfg nowN nowE api "valid" true
  let _created ← liftCT outcome.result
  let recently ← match outcome.recently with
    | some ud => Except.ok ud
    | none => Except.error (.typeError "NoneType object is not subscriptable")
  let account_name ← getItemS recently ACC_NAME
  let r ← liftCT (edit_s3_account_user cfg api account_name user_payload).1
  if user_payload == "unchanged_access" || user_payload == "only_password" then
    if !r.ok || r.status_code != SUCCESS_STATUS then
      return false
    let d ← r.json
    let v ← getItem d ACC_NAME
    return (v == JVal.str account_name && !(hasKey d ACCESS_KEY) && !(hasKey d SECRET_KEY))
  if user_payload != "valid" then
    return (!r.ok && r.status_code == BAD_REQUEST)
  if !r.ok || r.status_code != SUCCESS_STATUS then
    return false
  let d ← r.json
  if !(hasKey d ACCESS_KEY) && !(hasKey d SECRET_KEY) then
    return false
  if !(hasKey d ACC_NAME) then
    return false
  let v ← getItem d ACC_NAME
  return (v == JVal.str account_name)

/-- `RestS3user.edit_and_verify_s3_account_user`: body plus its `except`
clause. -/
def edit_and_verify_s3_account_user (fuel : Nat) (cfg : CsmConfig) (nowN nowE : Nat)
    (api : RestApi) (user_payload : String) : Except CTException Bool :=
  wrap_verification_exc (edit_and_verify_body fuel cfg nowN nowE api user_payload)

/-! ## `TestSupportBundle.create_support_bundle` (tests/s3/test_support_bundle.py) -/

/-- Python truthiness of the `resp_lst` argument (`None`, or a list that is
falsy exactly when empty). -/
def listTruthy {α : Type} (l : Option (List α)) : Bool :=
  match l with
  | none => false
  | some xs => !xs.isEmpty

/-- `TestSupportBundle.create_support_bundle` after the remote command has
produced `resp`: the source guards each append with `if resp_lst:` (false for
an empty list) and calls `resp_lst.append(True, resp[1])` /
`resp_lst.append(False, resp[1])` with two positional arguments -
`list.append` takes exactly one, so a non-empty `resp_lst` raises `TypeError`.
The returned pair is the function result together with the (never extended)
`resp_lst`. -/
def create_support_bundle (success_msg : String) (resp : Bool × String)
    (resp_lst : Option (List (Bool × String))) :
    Except PyExc ((Bool × String) × Option (List (Bool × String))) :=
  let appendFalse : Except PyExc ((Bool × String) × Option (List (Bool × String))) :=
    if listTruthy resp_lst then
      .error (.typeError "append() takes exactly one argument (2 given)")
    else .ok ((false, resp.2), resp_lst)
  if resp.1 then
    if infixOf success_msg.toList resp.2.toList then
      if listTruthy resp_lst then
        .error (.typeError "append() takes exactly one argument (2 given)")
      else .ok ((true, resp.2), resp_lst)
    else appendFalse
  else appendFalse

/-! ## `RASCoreLib` (libs/ras/ras_core_lib.py) -/

/-- Remote command output, a list of lines (or of items for list reads). -/
abbrev Output := List PyStr

/-- What a remote-operations helper hands back to its caller: the
`(status, output)` tuple of `execute_cmd`, a bare integer, a string, or
`None`. -/
inductive RemoteRet where
  | tup (ok : Bool) (out : Output)
  | intRet (n : Int)
  | strRet (s : PyStr)
  | noneRet
deriving DecidableEq, Repr

/-- `RASCoreLib.truncate_file`: returns the `execute_cmd` tuple unchanged. -/
def truncate_file (res : Bool × Output) : RemoteRet := .tup res.1 res.2

/-- `RASCoreLib.cp_file`: returns the `execute_cmd` tuple unchanged. -/
def cp_file (res : Bool × Output) : RemoteRet := .tup res.1 res.2

/-- `RASCoreLib.install_screen_on_machine`: returns the `execute_cmd` tuple
unchanged. -/
def install_screen_on_machine (res : Bool × Output) : RemoteRet := .tup res.1 res.2

/-- `RASCoreLib.check_status_file`: returns the `execute_cmd` tuple unchanged. -/
def check_status_file (res : Bool × Output) : RemoteRet := .tup res.1 res.2

/-- `RASCoreLib.change_file_mode`: returns the `execute_cmd` tuple unchanged. -/
def change_file_mode (res : Bool × Output) : RemoteRet := .tup res.1 res.2

/-- `RASCoreLib.get_cluster_id`: returns the `execute_cmd` tuple unchanged. -/
def get_cluster_id (res : Bool × Output) : RemoteRet := .tup res.1 res.2

/-- `RASCoreLib.encrypt_pwd`: returns the `execute_cmd` tuple unchanged. -/
def encrypt_pwd (res : Bool × Output) : RemoteRet := .tup res.1 res.2

/-- `RASCoreLib.kv_put`: returns the `execute_cmd` tuple unchanged. -/
def kv_put (res : Bool × Output) : RemoteRet := .tup res.1 res.2

/-- `RASCoreLib.kv_get`: returns the `execute_cmd` tuple unchanged. -/
def kv_get (res : Bool × Output) : RemoteRet := .tup res.1 res.2

/-- `RASCoreLib.run_mdadm_cmd`: returns the `execute_cmd` tuple unchanged. -/
def run_mdadm_cmd (res : Bool × Output) : RemoteRet := .tup res.1 res.2

/-- `RASCoreLib.generate_log_err_alert`: returns the `execute_cmd` tuple
unchanged. -/
def generate_log_err_alert (res : Bool × Output) : RemoteRet := .tup res.1 res.2

/-- `RASCoreLib.cal_sel_space`: on command failure returns the bare integer
`0`; on success filters the lines containing `"Percent Used"`, takes
`split(":")[-1].strip().rstrip("%")` of the first and converts it with
`int(...)` (raising `IndexError` / `ValueError` when the text does not
cooperate). -/
def cal_sel_space (res : Bool × Output) : Except PyExc RemoteRet :=
  if !res.1 then .ok (.intRet 0)
  else
    let alert_cache_data := res.2
    let use_percent_lst := alert_cache_data.filter (fun k => infixOf "Percent Used".toList k)
    match use_percent_lst with
    | [] => .error .indexError
    | k0 :: _ =>
      let percent_use := pyRstrip '%' (pyStrip ((splitOnChar ':' k0).getLastD []))
      match parseInt percent_use with
      | some n => .ok (.intRet n)
      | none => .error (.valueError "invalid literal for int with base 10")

/-- `RASCoreLib.get_fan_name`: on command failure returns `None`; on success
filters the items containing `"FAN"`, and returns
`split("|")[0].strip()` of the first (raising `IndexError` when none match). -/
def get_fan_name (componets_lst : Bool × Output) : Except PyExc RemoteRet :=
  if !componets_lst.1 then .ok .noneRet
  else
    let fan_list := componets_lst.2.filter (fun i => infixOf "FAN".toList i)
    match fan_list with
    | [] => .error .indexError
    | f0 :: _ => .ok (.strRet (pyStrip ((splitOnChar '|' f0).headD [])))

/-- Modelled from the spec: the shell-command templates of `commons.commands`
used by `run_cmd_on_screen` and `alert_validation` (an rpm query for the
screen package, the screen install, `SCREEN_CMD`, `COPY_FILE_CMD` and
`EXTRACT_LOG_CMD`), abstracted to their constructors since only which command
runs matters to the claims. -/
inductive RemoteCmd where
  | rpmGrepScreen
  | installScreen
  | screenWrap (cmd : String)
  | copyFile (src dst : String)
  | extractLog (src : String) (pat : PyStr) (dst : String)
deriving DecidableEq, Repr

/-- `RASCoreLib.run_cmd_on_screen`: queries rpm for the screen package, and if
that command reports failure first runs `install_screen_on_machine` before
wrapping `cmd` in a screen session.  The second component records every remote
command executed, in order. -/
def run_cmd_on_screen (execCmd : RemoteCmd → Bool × Output) (cmd : String) :
    (Bool × Output) × List RemoteCmd :=
  let rpmRes := execCmd .rpmGrepScreen
  let installed := if !rpmRes.1 then [RemoteCmd.installScreen] else []
  let screenRes := execCmd (.screenWrap cmd)
  (screenRes, RemoteCmd.rpmGrepScreen :: installed ++ [RemoteCmd.screenWrap cmd])

/-- The inner loop of `RASCoreLib.validate_alert_msg`: walk the pattern list,
remembering the last matched pattern, and return `(False, pattern)` at the
first pattern that is not a substring of the file content. -/
def validate_alert_msg_go (content : PyStr) :
    List PyStr → Option PyStr → Bool × Option PyStr
  | [], response => (true, response)
  | p :: rest, _response =>
    if infixOf p content then validate_alert_msg_go content rest (some p)
    else (false, some p)

/-- `RASCoreLib.validate_alert_msg` on the fetched local copy (`content`) of
the remote file: `response` starts as `None`. -/
def validate_alert_msg (content : PyStr) (pattern_lst : List PyStr) : Bool × Option PyStr :=
  validate_alert_msg_go content pattern_lst none

/-- The patterns `validate_alert_msg` actually tests against the file content,
in order: the same traversal as `validate_alert_msg_go`, stopping at the first
failing pattern. -/
def validate_alert_msg_checked (content : PyStr) : List PyStr → List PyStr
  | [] => []
  | p :: rest =>
    if infixOf p content then p :: validate_alert_msg_checked content rest
    else [p]

/-- The `RAS_VAL["ras_sspl_alert"]` configuration entries `alert_validation`
reads. -/
structure RasCfg where
  sspl_service : String
  rabitmq_service : String
  screen_log : String
  alert_log_file : String
  temp_txt_file : String
  extracted_alert_file : String
deriving DecidableEq, Repr

/-- One step of `alert_validation`, for the execution trace. -/
inductive AVStep where
  | restartSsplResource
  | statusCheck (svc : String)
  | execCmd (c : RemoteCmd)
  | readFile (f : String)
  | validateMsg (f : String)
deriving DecidableEq, Repr

/-- The second component of an `alert_validation` result tuple: a
service-status string, raw command output, the failing pattern from
`validate_alert_msg`, or the final success message. -/
inductive AVResp where
  | svcResp (s : String)
  | cmdOut (o : Output)
  | patResp (p : Option PyStr)
  | txt (s : String)
deriving DecidableEq, Repr

/-- `RASCoreLib.alert_validation`: check the sspl and rabbitmq service
statuses, copy the screen log, extract the alerts for `string_list[0]`
(raising `IndexError` on an empty list), and validate every pattern; each
failing step returns that step's `(False, ...)` result at once.  `svcStatus`
is the `get_s3server_service_status` oracle, `execCmd` the `execute_cmd`
oracle, and `fileContent` the fetched copy of the extracted alert file; the
trace lists the steps executed, in order. -/
def alert_validation (cfg : RasCfg) (svcStatus : String → Bool × String)
    (execCmd : RemoteCmd → Bool × Output) (fileContent : PyStr)
    (string_list : List PyStr) (restart : Bool) :
    Except PyExc ((Bool × AVResp) × List AVStep) :=
  let pre : List AVStep := if restart then [.restartSsplResource] else []
  let sspl := svcStatus cfg.sspl_service
  if !sspl.1 then
    .ok ((sspl.1, .svcResp sspl.2), pre ++ [.statusCheck cfg.sspl_service])
  else
    let rab := svcStatus cfg.rabitmq_service
    if !rab.1 then
      .ok ((rab.1, .svcResp rab.2),
        pre ++ [.statusCheck cfg.sspl_service, .statusCheck cfg.rabitmq_service])
    else
      let cpC := RemoteCmd.copyFile cfg.screen_log cfg.alert_log_file
      let cpRes := execCmd cpC
      let t1 := pre ++ [.statusCheck cfg.sspl_service, .statusCheck cfg.rabitmq_service,
        .execCmd cpC]
      if !cpRes.1 then
        .ok ((cpRes.1, .cmdOut cpRes.2), t1)
      else
        let t2 := t1 ++ [.readFile cfg.alert_log_file]
        match string_list with
        | [] => .error .indexError
        | s0 :: _ =>
          let exC := RemoteCmd.extractLog cfg.alert_log_file s0 cfg.extracted_alert_file
          let exRes := execCmd exC
          let t3 := t2 ++ [.execCmd exC]
          if !exRes.1 then
            .ok ((exRes.1, .cmdOut exRes.2), t3)
          else
            let v := validate_alert_msg fileContent string_list
            let t4 := t3 ++ [.validateMsg cfg.extracted_alert_file]
            if !v.1 then
              .ok ((v.1, .patResp v.2), t4)
            else
              .ok ((true, .txt "Fetched alerts successfully"), t4)

/-! ## Concrete instances used by witnesses and counterexamples -/

/-- True when a patch payload exists and all of its keys are among
`password` / `reset_access_key`. -/
def keysOkay (o : Option SDict) : Bool :=
  match o with
  | none => false
  | some d => d.all (fun kv => kv.1 == "password" || kv.1 == "reset_access_key")

/-- A concrete configuration for witness runs. -/
def cfgW : CsmConfig :=
  { s3accounts_endpoint := "/s3accounts"
    test_s3account_password := "Seagate1"
    s3account_user_username := "csmuser"
    s3account_user_email := "csm@seagate.com"
    s3account_user_password := "Csm1" }

/-- An API oracle on which every REST call raises. -/
def apiFailW : RestApi := fun _ => .error (.other "boom")

/-- The JSON body of a create-account response that carries `secret_key` but
no `access_key`. -/
def dPostW3 : Dict :=
  [("secret_key", JVal.str "SK"),
   ("account_name", JVal.str "test0"),
   ("account_email", JVal.str "test0@seagate.com")]

/-- A 200 create-account response whose body is `dPostW3`. -/
def respPostW3 : Response := { ok := true, status_code := 200, json := .ok dPostW3 }

/-- A 200 list response whose `s3_accounts` entry matches the new account. -/
def respListW3 : Response :=
  { ok := true, status_code := 200
    json := .ok [("s3_accounts",
      JVal.arr [[("account_name", "test0"), ("account_email", "test0@seagate.com")]])] }

/-- An API oracle answering POST with `respPostW3` and anything else with
`respListW3`. -/
def apiW3 : RestApi := fun call =>
  if call.verb == "post" then .ok respPostW3 else .ok respListW3

/-- The `verify_json_response` oracle as a subset check of the expected
name/email pairs. -/
def vjsonW : JsonVerifier := fun actual expected =>
  expected.all (fun kv =>
    match kv.2 with
    | .str s => actual.any (fun av => av.1 == kv.1 && av.2 == s)
    | .arr _ => false)

/-- The JSON body of a patch response that carries `secret_key` but no
`access_key`. -/
def dPatchW3 : Dict :=
  [("secret_key", JVal.str "SK"), ("account_name", JVal.str "test0")]

/-- A 200 patch response whose body is `dPatchW3`. -/
def respPatchW3 : Response := { ok := true, status_code := 200, json := .ok dPatchW3 }

/-- An API oracle answering PATCH with `respPatchW3` and anything else with an
empty 200 response. -/
def apiW3e : RestApi := fun call =>
  if call.verb == "patch" then .ok respPatchW3
  else .ok { ok := true, status_code := 200, json := .ok [] }

/-- A JSON body with neither `access_key` nor `secret_key`. -/
def dNoKeysW : Dict := [("account_name", JVal.str "test0")]

/-- An API oracle answering every call with a 200 response whose body is
`dNoKeysW`. -/
def apiNoKeysW : RestApi :=
  fun _ => .ok { ok := true, status_code := 200, json := .ok dNoKeysW }

/-- The JSON body of a list response holding an empty `s3_accounts` list and
no `iam_users` key. -/
def dC8W : Dict := [("s3_accounts", JVal.arr [])]

/-- An API oracle answering every call with a 200 response whose body is
`dC8W`. -/
def apiC8W : RestApi :=
  fun _ => .ok { ok := true, status_code := 200, json := .ok dC8W }

/-- A remote-command oracle on which every command fails. -/
def failExecW : RemoteCmd → Bool × Output := fun _ => (false, [])

/-- A remote-command oracle on which every command succeeds with empty
output. -/
def execOkW : RemoteCmd → Bool × Output := fun _ => (true, [])

/-- A service-status oracle reporting every service down. -/
def svcFailW : String → Bool × String := fun _ => (false, "inactive")

/-- A service-status oracle reporting every service up. -/
def svcOkW : String → Bool × String := fun _ => (true, "active")

/-- A concrete RAS configuration for witness runs. -/
def cfgRasW : RasCfg :=
  { sspl_service := "sspl-ll"
    rabitmq_service := "rabbitmq-server"
    screen_log := "screenlog.0"
    alert_log_file := "alert.log"
    temp_txt_file := "temp.txt"
    extracted_alert_file := "extracted.log" }

/-! ## Helper lemmas -/

theorem wrap_payload_exc_snd (p : Except PyExc (Option SDict) × List RestCall) :
    (wrap_payload_exc p).2 = p.2 := by
  obtain ⟨p1, p2⟩ := p
  cases p1 <;> rfl

/-! ## Claim C1 -/

/-- Claim C1 counterexample: on a failed remote command, `cal_sel_space`
returns the bare integer `0` and `get_fan_name` returns `None` - neither is a
`(False, raw output)` tuple, refuting the claim that every remote-operations
helper surfaces failure in that shape. -/
theorem c1_counterexample :
    cal_sel_space (false, []) = Except.ok (RemoteRet.intRet 0) ∧
    get_fan_name (false, []) = Except.ok RemoteRet.noneRet :=
  ⟨rfl, rfl⟩

/-- Claim C1 (amended): the remote-operations helpers that return the
`execute_cmd` result hand a failed command back unchanged as the
`(False, raw output)` tuple, except that `cal_sel_space` reports failure as
the bare integer `0` and `get_fan_name` reports it as `None`. -/
theorem c1_failure_shapes (out : Output) :
    truncate_file (false, out) = RemoteRet.tup false out ∧
    cp_file (false, out) = RemoteRet.tup false out ∧
    install_screen_on_machine (false, out) = RemoteRet.tup false out ∧
    check_status_file (false, out) = RemoteRet.tup false out ∧
    change_file_mode (false, out) = RemoteRet.tup false out ∧
    get_cluster_id (false, out) = RemoteRet.tup false out ∧
    encrypt_pwd (false, out) = RemoteRet.tup false out ∧
    kv_put (false, out) = RemoteRet.tup false out ∧
    kv_get (false, out) = RemoteRet.tup false out ∧
    run_mdadm_cmd (false, out) = RemoteRet.tup false out ∧
    generate_log_err_alert (false, out) = RemoteRet.tup false out ∧
    cal_sel_space (false, out) = Except.ok (RemoteRet.intRet 0) ∧
    get_fan_name (false, out) = Except.ok RemoteRet.noneRet :=
  ⟨rfl, rfl, rfl, rfl, rfl, rfl, rfl, rfl, rfl, rfl, rfl, rfl, rfl⟩

/-! ## Claim C4 -/

/-- Claim C4 (code bug): `create_support_bundle` never appends an entry to a
shared `resp_lst` list.  When `resp_lst` is the empty managed list the driving
test passes in, the `if resp_lst:` guard is falsy and the list comes back
unchanged; when `resp_lst` is non-empty, the two-argument
`resp_lst.append(..., resp[1])` raises `TypeError`.  Either way no
boolean-carrying entry is ever collected. -/
theorem c4_no_entry_appended (success_msg : String) (resp : Bool × String) :
    create_support_bundle success_msg resp (some []) =
      Except.ok ((resp.1 && infixOf success_msg.toList resp.2.toList, resp.2), some []) ∧
    ∀ x xs, create_support_bundle success_msg resp (some (x :: xs)) =
      Except.error (PyExc.typeError "append() takes exactly one argument (2 given)") := by
  obtain ⟨b, s⟩ := resp
  constructor
  · cases b <;> cases h : infixOf success_msg.toList s.toList <;>
      simp [create_support_bundle, listTruthy, String.toList, h] <;>
      simpa [String.toList] using h
  · intro x xs
    cases b <;> cases h : infixOf success_msg.toList s.toList <;>
      simp [create_support_bundle, listTruthy, String.toList, h]

/-! ## Claim C6 -/

/-- Claim C6: for each of the five recognized payload types,
`edit_user_payload` returns a dict whose keys all lie in
`password` / `reset_access_key`; for every other payload type it returns
`None` (and, the body being total, raises nothing). -/
theorem c6_edit_user_payload (cfg : CsmConfig) (t : String) :
    (t = "valid" ∨ t = "unchanged_access" ∨ t = "only_reset_access_key" ∨
       t = "only_password" ∨ t = "no_payload" →
      keysOkay (edit_user_payload cfg t) = true) ∧
    (¬(t = "valid" ∨ t = "unchanged_access" ∨ t = "only_reset_access_key" ∨
       t = "only_password" ∨ t = "no_payload") →
      edit_user_payload cfg t = none) := by
  constructor
  · rintro (rfl | rfl | rfl | rfl | rfl) <;> rfl
  · intro h
    push_neg at h
    obtain ⟨h1, h2, h3, h4, h5⟩ := h
    simp [edit_user_payload, List.lookup,
      beq_eq_false_iff_ne.mpr h1, beq_eq_false_iff_ne.mpr h2,
      beq_eq_false_iff_ne.mpr h3, beq_eq_false_iff_ne.mpr h4,
      beq_eq_false_iff_ne.mpr h5]

/-- Claim C6 witness: the recognized type `"valid"` gives a payload whose keys
are within the patch-field set, and the unrecognized type `"bogus"` gives
`None`. -/
theorem c6_witness :
    keysOkay (edit_user_payload cfgW "valid") = true ∧
    edit_user_payload cfgW "bogus" = none :=
  ⟨(c6_edit_user_payload cfgW "valid").1 (Or.inl rfl),
   (c6_edit_user_payload cfgW "bogus").2 (by decide)⟩

/-! ## Claim C10 -/

theorem validate_go_all_match (content : PyStr) :
    ∀ (lst : List PyStr) (acc : Option PyStr), lst ≠ [] →
      (∀ p ∈ lst, infixOf p content = true) →
      validate_alert_msg_go content lst acc = (true, lst.getLast?) := by
  intro lst
  induction lst with
  | nil => exact fun acc h => absurd rfl h
  | cons p rest ih =>
    intro acc _ h
    have hp : infixOf p content = true := h p (List.mem_cons_self p rest)
    have hrest : ∀ q ∈ rest, infixOf q content = true :=
      fun q hq => h q (List.mem_cons_of_mem p hq)
    cases rest with
    | nil => simp [validate_alert_msg_go, hp]
    | cons r rs =>
      rw [show validate_alert_msg_go content (p :: r :: rs) acc
            = validate_alert_msg_go content (r :: rs) (some p) by
          simp [validate_alert_msg_go, hp]]
      rw [ih (some p) (by simp) hrest]
      simp [List.getLast?_cons_cons]

theorem validate_go_first_fail (content : PyStr) (p : PyStr) (suf : List PyStr) :
    ∀ pre (acc : Option PyStr), (∀ q ∈ pre, infixOf q content = true) →
      infixOf p content = false →
      validate_alert_msg_go content (pre ++ p :: suf) acc = (false, some p) := by
  intro pre
  induction pre with
  | nil =>
    intro acc _ hp
    simp [validate_alert_msg_go, hp]
  | cons q qs ih =>
    intro acc hpre hp
    have hq : infixOf q content = true := hpre q (List.mem_cons_self q qs)
    have hqs : ∀ x ∈ qs, infixOf x content = true :=
      fun x hx => hpre x (List.mem_cons_of_mem q hx)
    simp only [List.cons_append, validate_alert_msg_go, hq, if_true]
    exact ih (some q) hqs hp

theorem validate_checked_all_match (content : PyStr) (lst : List PyStr)
    (h : ∀ p ∈ lst, infixOf p content = true) :
    validate_alert_msg_checked content lst = lst := by
  induction lst with
  | nil => rfl
  | cons p rest ih =>
    have hp : infixOf p content = true := h p (List.mem_cons_self p rest)
    have hrest : ∀ q ∈ rest, infixOf q content = true :=
      fun q hq => h q (List.mem_cons_of_mem p hq)
    simp [validate_alert_msg_checked, hp, ih hrest]

theorem validate_checked_first_fail (content : PyStr) (p : PyStr) (suf : List PyStr) :
    ∀ pre, (∀ q ∈ pre, infixOf q content = true) → infixOf p content = false →
      validate_alert_msg_checked content (pre ++ p :: suf) = pre ++ [p] := by
  intro pre
  induction pre with
  | nil =>
    intro _ hp
    simp [validate_alert_msg_checked, hp]
  | cons q qs ih =>
    intro hpre hp
    have hq : infixOf q content = true := hpre q (List.mem_cons_self q qs)
    have hqs : ∀ x ∈ qs, infixOf x content = true :=
      fun x hx => hpre x (List.mem_cons_of_mem q hx)
    simp only [List.cons_append, validate_alert_msg_checked, hq, if_true]
    simp [ih hqs hp]

/-- Claim C10: `validate_alert_msg` checks the patterns in list order against
the fetched file content: an empty list gives `(True, None)`; when every
pattern occurs as a substring it returns `(True, last pattern)`; and at the
first non-occurring pattern `p` it returns `(False, p)` having examined
exactly the patterns up to and including `p`. -/
theorem c10_validate_alert_msg (content : PyStr) (lst : List PyStr) :
    (validate_alert_msg content [] = (true, none)) ∧
    ((∀ p ∈ lst, infixOf p content = true) →
      validate_alert_msg content lst = (true, lst.getLast?) ∧
      validate_alert_msg_checked content lst = lst) ∧
    (∀ pre p suf, lst = pre ++ p :: suf →
      (∀ q ∈ pre, infixOf q content = true) → infixOf p content = false →
      validate_alert_msg content lst = (false, some p) ∧
      validate_alert_msg_checked content lst = pre ++ [p]) := by
  refine ⟨rfl, fun h => ⟨?_, validate_checked_all_match content lst h⟩,
    fun pre p suf hsplit hpre hp => ?_⟩
  · cases lst with
    | nil => rfl
    | cons q qs =>
      exact validate_go_all_match content (q :: qs) none (by simp) h
  · subst hsplit
    exact ⟨validate_go_first_fail content p suf pre none hpre hp,
      validate_checked_first_fail content p suf pre hpre hp⟩

/-- Claim C10 witness: on content `"abc"` with patterns `["ab", "zz"]` the
first pattern matches and the second fails, so the run returns
`(False, "zz")` having examined both patterns; on `["ab"]` alone it returns
`(True, "ab")`. -/
theorem c10_witness :
    validate_alert_msg "abc".toList ["ab".toList, "zz".toList] = (false, some "zz".toList) ∧
    validate_alert_msg_checked "abc".toList ["ab".toList, "zz".toList] =
      ["ab".toList, "zz".toList] ∧
    validate_alert_msg "abc".toList ["ab".toList] = (true, some "ab".toList) :=
  ⟨((c10_validate_alert_msg "abc".toList ["ab".toList, "zz".toList]).2.2
      ["ab".toList] "zz".toList [] rfl (by decide) (by decide)).1,
   ((c10_validate_alert_msg "abc".toList ["ab".toList, "zz".toList]).2.2
      ["ab".toList] "zz".toList [] rfl (by decide) (by decide)).2,
   ((c10_validate_alert_msg "abc".toList ["ab".toList]).2.1 (by decide)).1⟩

/-! ## Claim C5 -/

theorem create_s3_account_given_calls_post (cfg : CsmConfig) (api : RestApi)
    (p : Except PyExc (Option SDict) × List RestCall)
    (hp : ∀ c ∈ p.2, c.verb = "post" ∧ c.endpoint = cfg.s3accounts_endpoint) :
    ∀ c ∈ (create_s3_account_given cfg api p).calls,
      c.verb = "post" ∧ c.endpoint = cfg.s3accounts_endpoint := by
  obtain ⟨p1, p2⟩ := p
  cases p1 with
  | error e => exact hp
  | ok ud =>
    intro c hc
    simp only [create_s3_account_given] at hc
    cases hapi : api { verb := "post", endpoint := cfg.s3accounts_endpoint, data := ud } with
    | ok r =>
      rw [hapi] at hc
      simp only [List.mem_append, List.mem_singleton] at hc
      rcases hc with hc | rfl
      · exact hp c hc
      · exact ⟨rfl, rfl⟩
    | error e =>
      rw [hapi] at hc
      simp only [List.mem_append, List.mem_singleton] at hc
      rcases hc with hc | rfl
      · exact hp c hc
      · exact ⟨rfl, rfl⟩

theorem create_payload_body_calls_post (cfg : CsmConfig) (nowN nowE : Nat) (api : RestApi) :
    ∀ (fuel : Nat) (ut : String),
      ∀ c ∈ (create_payload_body cfg nowN nowE api fuel ut).2,
      c.verb = "post" ∧ c.endpoint = cfg.s3accounts_endpoint := by
  intro fuel
  induction fuel with
  | zero =>
    intro ut c hc
    simp only [create_payload_body] at hc
    split at hc
    · simp at hc
    · split at hc
      · simp at hc
      · split at hc
        · simp at hc
        · split at hc
          · simp at hc
          · split at hc
            · simp at hc
            · split at hc <;> simp at hc
  | succ f ih =>
    intro ut c hc
    simp only [create_payload_body] at hc
    split at hc
    · simp at hc
    · split at hc
      · have hnested := create_s3_account_given_calls_post cfg api
          (wrap_payload_exc (create_payload_body cfg nowN nowE api f "valid"))
          (by rw [wrap_payload_exc_snd]; exact ih "valid")
        split at hc <;> exact hnested c hc
      · split at hc
        · simp at hc
        · split at hc
          · simp at hc
          · split at hc
            · simp at hc
            · split at hc <;> simp at hc

/-- Claim C5: `list_all_created_s3account` issues exactly one GET on the
s3accounts endpoint, `edit_s3_account_user` one PATCH and
`delete_s3_account_user` one DELETE on the endpoint extended with
`/<username>`, and every request `create_s3_account` issues (including the
nested one of the `duplicate` payload) is a POST to the s3accounts endpoint. -/
theorem c5_verbs_and_endpoints (cfg : CsmConfig) (api : RestApi) (un pl : String)
    (fuel nowN nowE : Nat) (ut : String) (save : Bool) :
    (list_all_created_s3account cfg api).2 =
      [{ verb := "get", endpoint := cfg.s3accounts_endpoint, data := none }] ∧
    (edit_s3_account_user cfg api un pl).2 =
      [{ verb := "patch", endpoint := cfg.s3accounts_endpoint ++ "/" ++ un,
         data := edit_user_payload cfg pl }] ∧
    (delete_s3_account_user cfg api un).2 =
      [{ verb := "delete", endpoint := cfg.s3accounts_endpoint ++ "/" ++ un,
         data := none }] ∧
    (∀ c ∈ (create_s3_account fuel cfg nowN nowE api ut save).calls,
      c.verb = "post" ∧ c.endpoint = cfg.s3accounts_endpoint) := by
  refine ⟨?_, ?_, ?_, ?_⟩
  · simp only [list_all_created_s3account]
    split <;> rfl
  · simp only [edit_s3_account_user]
    split <;> rfl
  · simp only [delete_s3_account_user]
    split <;> rfl
  · unfold create_s3_account create_payload_for_new_s3_account
    exact create_s3_account_given_calls_post cfg api _
      (by rw [wrap_payload_exc_snd]
          exact create_payload_body_calls_post cfg nowN nowE api fuel ut)

/-- Claim C5 witness: a concrete run of the four wrappers against a failing
API oracle, showing the issued requests. -/
theorem c5_witness :
    (list_all_created_s3account cfgW apiFailW).2 =
      [{ verb := "get", endpoint := "/s3accounts", data := none }] ∧
    (delete_s3_account_user cfgW apiFailW "u1").2 =
      [{ verb := "delete", endpoint := "/s3accounts/u1", data := none }] ∧
    ({ verb := "post", endpoint := "/s3accounts",
       data := some [("account_name", "test0"),
                     ("account_email", "test0@seagate.com"),
                     ("password", "Seagate1")] } : RestCall).verb = "post" := by
  refine ⟨?_, ?_, ?_⟩
  · exact (c5_verbs_and_endpoints cfgW apiFailW "u1" "valid" 1 0 0 "valid" false).1
  · exact (c5_verbs_and_endpoints cfgW apiFailW "u1" "valid" 1 0 0 "valid" false).2.2.1
  · exact ((c5_verbs_and_endpoints cfgW apiFailW "u1" "valid" 1 0 0 "valid" false).2.2.2
      { verb := "post", endpoint := "/s3accounts",
        data := some [("account_name", "test0"),
                      ("account_email", "test0@seagate.com"),
                      ("password", "Seagate1")] } (by decide)).1

/-! ## Claim C2 -/

theorem create_payload_body_valid (cfg : CsmConfig) (nowN nowE : Nat) (api : RestApi)
    (fuel : Nat) :
    create_payload_body cfg nowN nowE api fuel "valid" =
      (.ok (some [("account_name", "test" ++ toString nowN),
                  ("account_email", "test" ++ toString nowE ++ "@seagate.com"),
                  ("password", cfg.test_s3account_password)]), []) := by
  cases fuel <;> rfl

theorem create_s3_account_given_err_code (cfg : CsmConfig) (api : RestApi)
    (p : Except PyExc (Option SDict) × List RestCall) (ct : CTException)
    (h : (create_s3_account_given cfg api p).result = .error ct) :
    ct.code = .CSM_REST_AUTHENTICATION_ERROR := by
  obtain ⟨p1, p2⟩ := p
  cases p1 with
  | error e =>
    simp only [create_s3_account_given] at h
    cases h
    rfl
  | ok ud =>
    simp only [create_s3_account_given] at h
    split at h
    · cases h
    · cases h
      rfl

/-- Claim C2: each REST wrapper of `RestS3user` (`create_s3_account`,
`list_all_created_s3account`, `edit_s3_account_user`,
`delete_s3_account_user`, `edit_s3_account_user_invalid_password`) reports a
failing run only as a `CTException` carrying
`CSM_REST_AUTHENTICATION_ERROR` - the original exception never escapes - and
when the underlying REST call raises `e`, the wrapper neither returns
normally nor raises anything but `CTException(CSM_REST_AUTHENTICATION_ERROR,
e.args[0])`. -/
theorem c2_wrappers_raise_auth_error (cfg : CsmConfig) (api : RestApi)
    (fuel nowN nowE : Nat) (ut un pl : String) (ip : Option SDict) (e : PyExc) :
    ((∀ ct, (create_s3_account fuel cfg nowN nowE api ut false).result = .error ct →
        ct.code = .CSM_REST_AUTHENTICATION_ERROR) ∧
     (∀ ct, (list_all_created_s3account cfg api).1 = .error ct →
        ct.code = .CSM_REST_AUTHENTICATION_ERROR) ∧
     (∀ ct, (edit_s3_account_user cfg api un pl).1 = .error ct →
        ct.code = .CSM_REST_AUTHENTICATION_ERROR) ∧
     (∀ ct, (delete_s3_account_user cfg api un).1 = .error ct →
        ct.code = .CSM_REST_AUTHENTICATION_ERROR) ∧
     (∀ ct, (edit_s3_account_user_invalid_password cfg api un ip).1 = .error ct →
        ct.code = .CSM_REST_AUTHENTICATION_ERROR)) ∧
    ((∀ call, api call = .error e) →
      ((list_all_created_s3account cfg api).1 =
        .error ⟨.CSM_REST_AUTHENTICATION_ERROR, e.args0⟩ ∧
       (edit_s3_account_user cfg api un pl).1 =
        .error ⟨.CSM_REST_AUTHENTICATION_ERROR, e.args0⟩ ∧
       (delete_s3_account_user cfg api un).1 =
        .error ⟨.CSM_REST_AUTHENTICATION_ERROR, e.args0⟩ ∧
       (edit_s3_account_user_invalid_password cfg api un ip).1 =
        .error ⟨.CSM_REST_AUTHENTICATION_ERROR, e.args0⟩ ∧
       (create_s3_account fuel cfg nowN nowE api "valid" false).result =
        .error ⟨.CSM_REST_AUTHENTICATION_ERROR, e.args0⟩)) := by
  constructor
  · refine ⟨fun ct h => ?_, fun ct h => ?_, fun ct h => ?_, fun ct h => ?_, fun ct h => ?_⟩
    · exact create_s3_account_given_err_code cfg api _ ct h
    · simp only [list_all_created_s3account] at h
      split at h
      · cases h
      · cases h
        rfl
    · simp only [edit_s3_account_user] at h
      split at h
      · cases h
      · cases h
        rfl
    · simp only [delete_s3_account_user] at h
      split at h
      · cases h
      · cases h
        rfl
    · simp only [edit_s3_account_user_invalid_password] at h
      split at h
      · cases h
      · cases h
        rfl
  · intro hfail
    refine ⟨?_, ?_, ?_, ?_, ?_⟩
    · simp [list_all_created_s3account, hfail]
    · simp [edit_s3_account_user, hfail]
    · simp [delete_s3_account_user, hfail]
    · simp [edit_s3_account_user_invalid_password, hfail]
    · simp [create_s3_account, create_payload_for_new_s3_account, create_payload_body_valid,
        wrap_payload_exc, create_s3_account_given, hfail]

/-- Claim C2 witness: against an API oracle on which every call raises, all
five wrappers raise `CTException(CSM_REST_AUTHENTICATION_ERROR, "boom")`. -/
theorem c2_witness :
    (CTException.mk .CSM_REST_AUTHENTICATION_ERROR (.str "boom")).code =
      .CSM_REST_AUTHENTICATION_ERROR ∧
    (list_all_created_s3account cfgW apiFailW).1 =
      .error ⟨.CSM_REST_AUTHENTICATION_ERROR, .str "boom"⟩ ∧
    (edit_s3_account_user cfgW apiFailW "u1" "valid").1 =
      .error ⟨.CSM_REST_AUTHENTICATION_ERROR, .str "boom"⟩ ∧
    (delete_s3_account_user cfgW apiFailW "u1").1 =
      .error ⟨.CSM_REST_AUTHENTICATION_ERROR, .str "boom"⟩ ∧
    (edit_s3_account_user_invalid_password cfgW apiFailW "u1" (some [])).1 =
      .error ⟨.CSM_REST_AUTHENTICATION_ERROR, .str "boom"⟩ ∧
    (create_s3_account 1 cfgW 0 0 apiFailW "valid" false).result =
      .error ⟨.CSM_REST_AUTHENTICATION_ERROR, .str "boom"⟩ := by
  have hthm := c2_wrappers_raise_auth_error cfgW apiFailW 1 0 0 "valid" "u1" "valid"
    (some []) (.other "boom")
  have hb := hthm.2 (fun _ => rfl)
  have ha := (hthm.1.2.1 ⟨.CSM_REST_AUTHENTICATION_ERROR, .str "boom"⟩ hb.1)
  exact ⟨ha, hb.1, hb.2.1, hb.2.2.1, hb.2.2.2.1, hb.2.2.2.2⟩

/-! ## Claim C9 -/

/-- Claim C9: for a `user_type` handled by none of the six branches,
`create_payload_for_new_s3_account` reaches the final dict with `user_name`
unbound; the resulting `NameError` is caught and re-raised as
`CTException(CSM_REST_VERIFICATION_FAILED, ...)`, and `create_s3_account`
then re-wraps that as a `CTException` of its own without issuing any POST. -/
theorem c9_unknown_user_type (fuel : Nat) (cfg : CsmConfig) (nowN nowE : Nat)
    (api : RestApi) (ut : String) (save : Bool)
    (h : ut ∉ ["pre-define", "valid", "duplicate", "missing", "invalid", "invalid_for_ui"]) :
    create_payload_for_new_s3_account fuel cfg nowN nowE api ut =
      (.error (.ct .CSM_REST_VERIFICATION_FAILED
        (.str "local variable user_name referenced before assignment")), []) ∧
    (create_s3_account fuel cfg nowN nowE api ut save).result =
      .error ⟨.CSM_REST_AUTHENTICATION_ERROR, .code .CSM_REST_VERIFICATION_FAILED⟩ ∧
    (create_s3_account fuel cfg nowN nowE api ut save).calls = [] := by
  simp only [List.mem_cons, List.mem_singleton, not_or] at h
  obtain ⟨h1, h2, h3, h4, h5, h6, -⟩ := h
  have e1 : (ut == "pre-define") = false := beq_eq_false_iff_ne.mpr h1
  have e2 : (ut == "valid") = false := beq_eq_false_iff_ne.mpr h2
  have e3 : (ut == "duplicate") = false := beq_eq_false_iff_ne.mpr h3
  have e4 : (ut == "missing") = false := beq_eq_false_iff_ne.mpr h4
  have e5 : (ut == "invalid") = false := beq_eq_false_iff_ne.mpr h5
  have e6 : (ut == "invalid_for_ui") = false := beq_eq_false_iff_ne.mpr h6
  have hbody : create_payload_body cfg nowN nowE api fuel ut =
      (.error (.nameError "local variable user_name referenced before assignment"), []) := by
    cases fuel <;> simp [create_payload_body, e1, e2, e3, e4, e5, e6]
  refine ⟨?_, ?_, ?_⟩ <;>
    simp [create_payload_for_new_s3_account, hbody, wrap_payload_exc, create_s3_account,
      create_s3_account_given, PyExc.args0]

/-- Claim C9 witness: the unrecognized user type `"bogus"` raises through both
functions and no request reaches the API oracle. -/
theorem c9_witness :
    create_payload_for_new_s3_account 1 cfgW 0 0 apiFailW "bogus" =
      (.error (.ct .CSM_REST_VERIFICATION_FAILED
        (.str "local variable user_name referenced before assignment")), []) ∧
    (create_s3_account 1 cfgW 0 0 apiFailW "bogus" false).result =
      .error ⟨.CSM_REST_AUTHENTICATION_ERROR, .code .CSM_REST_VERIFICATION_FAILED⟩ ∧
    (create_s3_account 1 cfgW 0 0 apiFailW "bogus" false).calls = [] :=
  c9_unknown_user_type 1 cfgW 0 0 apiFailW "bogus" false (by decide)

/-! ## Claim C8 -/

theorem hasKey_of_lookup_some (d : Dict) (k : String) (v : JVal)
    (h : d.lookup k = some v) : hasKey d k = true := by
  induction d with
  | nil => simp [List.lookup] at h
  | cons kv rest ih =>
    simp only [List.lookup] at h
    simp only [hasKey, List.any_cons]
    cases hk : (k == kv.1) with
    | true =>
      have hk2 : (kv.1 == k) = true := by
        rw [beq_iff_eq] at hk ⊢
        exact hk.symm
      simp [hk2]
    | false =>
      rw [hk] at h
      have hrest := ih h
      simp only [hasKey] at hrest
      simp [hrest]

theorem lookup_eq_none_of_hasKey_false (d : Dict) (k : String)
    (h : hasKey d k = false) : d.lookup k = none := by
  induction d with
  | nil => rfl
  | cons kv rest ih =>
    simp only [hasKey, List.any_cons, Bool.or_eq_false_iff] at h
    obtain ⟨h1, h2⟩ := h
    have hk : (k == kv.1) = false := by
      rw [beq_eq_false_iff_ne] at h1 ⊢
      exact fun he => h1 he.symm
    simp only [List.lookup, hk]
    exact ih h2

/-- Claim C8: when `list_all_created_s3account` yields a 200 response whose
JSON maps `s3_accounts` to an empty list and has no `iam_users` key,
`verify_list_s3account_details` (for either value of `expect_no_user`) does
not return a boolean: the warning log of the empty-list branch subscripts
`response["iam_users"]`, the `KeyError` is caught, and the routine raises
`CTException(CSM_REST_VERIFICATION_FAILED, "iam_users")`. -/
theorem c8_verify_list_raises (cfg : CsmConfig) (api : RestApi) (expect_no_user : Bool)
    (r : Response) (d : Dict)
    (hapi : api { verb := "get", endpoint := cfg.s3accounts_endpoint, data := none } = .ok r)
    (hok : r.ok = true) (hstatus : r.status_code = 200) (hjson : r.json = .ok d)
    (hacc : d.lookup "s3_accounts" = some (JVal.arr []))
    (hiam : hasKey d "iam_users" = false) :
    verify_list_s3account_details cfg api expect_no_user =
      .error ⟨.CSM_REST_VERIFICATION_FAILED, .str "iam_users"⟩ := by
  have hk : hasKey d S3_ACCOUNTS = true := hasKey_of_lookup_some d S3_ACCOUNTS _ hacc
  have hlp : d.lookup "iam_users" = none := lookup_eq_none_of_hasKey_false d _ hiam
  simp [verify_list_s3account_details, verify_list_body, list_all_created_s3account, hapi,
    liftCT, hok, hstatus, hjson, hk, SUCCESS_STATUS, getItem, hacc, hlp, pyLen,
    wrap_verification_exc, PyExc.args0, Except.instMonad, Bind.bind, Except.bind,
    Pure.pure, Except.pure, Functor.map, Except.map]

/-- Claim C8 witness: a concrete 200 list response with `s3_accounts` empty
and no `iam_users` key makes the verification routine raise, for both values
of `expect_no_user`. -/
theorem c8_witness :
    verify_list_s3account_details cfgW apiC8W true =
      .error ⟨.CSM_REST_VERIFICATION_FAILED, .str "iam_users"⟩ ∧
    verify_list_s3account_details cfgW apiC8W false =
      .error ⟨.CSM_REST_VERIFICATION_FAILED, .str "iam_users"⟩ :=
  ⟨c8_verify_list_raises cfgW apiC8W true
      { ok := true, status_code := 200, json := .ok dC8W } dC8W rfl rfl rfl rfl rfl rfl,
   c8_verify_list_raises cfgW apiC8W false
      { ok := true, status_code := 200, json := .ok dC8W } dC8W rfl rfl rfl rfl rfl rfl⟩

/-! ## Claim C7 -/

/-- Claim C7 counterexample: `run_cmd_on_screen` does fall back to an
alternative action to recover from a missing prerequisite - when the rpm
query for the screen package fails, it executes the screen-install command
before proceeding, refuting the blanket no-fallback clause of the claim. -/
theorem c7_counterexample :
    (run_cmd_on_screen failExecW "cmd").2 =
      [RemoteCmd.rpmGrepScreen, RemoteCmd.installScreen, RemoteCmd.screenWrap "cmd"] ∧
    RemoteCmd.installScreen ∈ (run_cmd_on_screen failExecW "cmd").2 :=
  ⟨rfl, by decide⟩

/-- Claim C7 (amended): within `alert_validation`, every failing intermediate
step - the sspl status check, the rabbitmq status check, the screen-log copy
command, the alert-extraction command, or the pattern validation - makes the
function return that failing result immediately, with the executed-step trace
ending at the failed step (each step run once, nothing after it); the
library-wide no-fallback clause is dropped, since `run_cmd_on_screen` installs
the screen utility when the rpm query reports it missing. -/
theorem c7_alert_validation_early_exit (cfg : RasCfg) (svcStatus : String → Bool × String)
    (execCmd : RemoteCmd → Bool × Output) (content : PyStr) (lst : List PyStr)
    (restart : Bool) :
    ((svcStatus cfg.sspl_service).1 = false →
      alert_validation cfg svcStatus execCmd content lst restart =
        .ok ((false, .svcResp (svcStatus cfg.sspl_service).2),
          (if restart then [AVStep.restartSsplResource] else []) ++
            [.statusCheck cfg.sspl_service])) ∧
    ((svcStatus cfg.sspl_service).1 = true →
      (svcStatus cfg.rabitmq_service).1 = false →
      alert_validation cfg svcStatus execCmd content lst restart =
        .ok ((false, .svcResp (svcStatus cfg.rabitmq_service).2),
          (if restart then [AVStep.restartSsplResource] else []) ++
            [.statusCheck cfg.sspl_service, .statusCheck cfg.rabitmq_service])) ∧
    ((svcStatus cfg.sspl_service).1 = true →
      (svcStatus cfg.rabitmq_service).1 = true →
      (execCmd (RemoteCmd.copyFile cfg.screen_log cfg.alert_log_file)).1 = false →
      alert_validation cfg svcStatus execCmd content lst restart =
        .ok ((false, .cmdOut (execCmd
            (RemoteCmd.copyFile cfg.screen_log cfg.alert_log_file)).2),
          (if restart then [AVStep.restartSsplResource] else []) ++
            [.statusCheck cfg.sspl_service, .statusCheck cfg.rabitmq_service,
             .execCmd (RemoteCmd.copyFile cfg.screen_log cfg.alert_log_file)])) ∧
    (∀ s0 rest, lst = s0 :: rest →
      (svcStatus cfg.sspl_service).1 = true →
      (svcStatus cfg.rabitmq_service).1 = true →
      (execCmd (RemoteCmd.copyFile cfg.screen_log cfg.alert_log_file)).1 = true →
      (execCmd (RemoteCmd.extractLog cfg.alert_log_file s0 cfg.extracted_alert_file)).1 =
        false →
      alert_validation cfg svcStatus execCmd content lst restart =
        .ok ((false, .cmdOut (execCmd
            (RemoteCmd.extractLog cfg.alert_log_file s0 cfg.extracted_alert_file)).2),
          (if restart then [AVStep.restartSsplResource] else []) ++
            [.statusCheck cfg.sspl_service, .statusCheck cfg.rabitmq_service,
             .execCmd (RemoteCmd.copyFile cfg.screen_log cfg.alert_log_file),
             .readFile cfg.alert_log_file,
             .execCmd (RemoteCmd.extractLog cfg.alert_log_file s0
               cfg.extracted_alert_file)])) ∧
    (∀ s0 rest, lst = s0 :: rest →
      (svcStatus cfg.sspl_service).1 = true →
      (svcStatus cfg.rabitmq_service).1 = true →
      (execCmd (RemoteCmd.copyFile cfg.screen_log cfg.alert_log_file)).1 = true →
      (execCmd (RemoteCmd.extractLog cfg.alert_log_file s0 cfg.extracted_alert_file)).1 =
        true →
      (validate_alert_msg content lst).1 = false →
      alert_validation cfg svcStatus execCmd content lst restart =
        .ok ((false, .patResp (validate_alert_msg content lst).2),
          (if restart then [AVStep.restartSsplResource] else []) ++
            [.statusCheck cfg.sspl_service, .statusCheck cfg.rabitmq_service,
             .execCmd (RemoteCmd.copyFile cfg.screen_log cfg.alert_log_file),
             .readFile cfg.alert_log_file,
             .execCmd (RemoteCmd.extractLog cfg.alert_log_file s0 cfg.extracted_alert_file),
             .validateMsg cfg.extracted_alert_file])) := by
  refine ⟨fun h1 => ?_, fun h1 h2 => ?_, fun h1 h2 h3 => ?_,
    fun s0 rest hl h1 h2 h3 h4 => ?_, fun s0 rest hl h1 h2 h3 h4 h5 => ?_⟩
  · simp [alert_validation, h1]
  · simp [alert_validation, h1, h2]
  · simp [alert_validation, h1, h2, h3]
  · subst hl
    simp [alert_validation, h1, h2, h3, h4]
  · subst hl
    simp [alert_validation, h1, h2, h3, h4, h5]

/-- Claim C7 witness: with every service down, `alert_validation` stops right
after the sspl status check; with services up, commands succeeding and a
pattern that does not occur, it stops at the validation step and reports the
failing pattern. -/
theorem c7_witness :
    alert_validation cfgRasW svcFailW execOkW [] [] false =
      .ok ((false, .svcResp "inactive"), [.statusCheck "sspl-ll"]) ∧
    alert_validation cfgRasW svcOkW execOkW "abc".toList ["zz".toList] false =
      .ok ((false, .patResp (some "zz".toList)),
        [.statusCheck "sspl-ll", .statusCheck "rabbitmq-server",
         .execCmd (RemoteCmd.copyFile "screenlog.0" "alert.log"),
         .readFile "alert.log",
         .execCmd (RemoteCmd.extractLog "alert.log" "zz".toList "extracted.log"),
         .validateMsg "extracted.log"]) :=
  ⟨(c7_alert_validation_early_exit cfgRasW svcFailW execOkW [] [] false).1 rfl,
   (c7_alert_validation_early_exit cfgRasW svcOkW execOkW "abc".toList
      ["zz".toList] false).2.2.2.2 "zz".toList [] rfl rfl rfl rfl rfl (by decide)⟩

/-! ## Claim C3 -/

/-- Claim C3 counterexample: the key-presence guard tests absence of BOTH
keys (`ACCESS_KEY not in response and SECRET_KEY not in response`), so a
response that lacks `access_key` but carries `secret_key` passes the guard
and both verification routines return `True` - refuting the claim that
lacking either key forces `False`. -/
theorem c3_counterexample :
    hasKey dPostW3 ACCESS_KEY = false ∧
    hasKey dPatchW3 ACCESS_KEY = false ∧
    create_and_verify_s3account 1 cfgW 0 0 apiW3 vjsonW "valid" 200 = .ok true ∧
    edit_and_verify_s3_account_user 1 cfgW 0 0 apiW3e "valid" = .ok true :=
  ⟨by decide, by decide, by decide, by decide⟩

/-- Claim C3 (amended): in `create_and_verify_s3account` (user `"valid"`,
expected status 200) and `edit_and_verify_s3_account_user` (payload
`"valid"`, 200 response), the routine returns `False` when the response JSON
lacks BOTH the `access_key` and the `secret_key` keys; the guard only rejects
when both are absent, so a single present key is enough to pass it. -/
theorem c3_amended (fuel : Nat) (cfg : CsmConfig) (nowN nowE : Nat) (api : RestApi)
    (vjson : JsonVerifier) (r rc : Response) (d : Dict) :
    (api { verb := "post", endpoint := cfg.s3accounts_endpoint,
           data := some [("account_name", "test" ++ toString nowN),
                         ("account_email", "test" ++ toString nowE ++ "@seagate.com"),
                         ("password", cfg.test_s3account_password)] } = .ok r →
      r.ok = true → r.status_code = 200 → r.json = .ok d →
      hasKey d ACCESS_KEY = false → hasKey d SECRET_KEY = false →
      create_and_verify_s3account fuel cfg nowN nowE api vjson "valid" 200 = .ok false) ∧
    (api { verb := "post", endpoint := cfg.s3accounts_endpoint,
           data := some [("account_name", "test" ++ toString nowN),
                         ("account_email", "test" ++ toString nowE ++ "@seagate.com"),
                         ("password", cfg.test_s3account_password)] } = .ok rc →
      api { verb := "patch",
            endpoint := cfg.s3accounts_endpoint ++ "/" ++ ("test" ++ toString nowN),
            data := edit_user_payload cfg "valid" } = .ok r →
      r.ok = true → r.status_code = 200 → r.json = .ok d →
      hasKey d ACCESS_KEY = false → hasKey d SECRET_KEY = false →
      edit_and_verify_s3_account_user fuel cfg nowN nowE api "valid" = .ok false) := by
  constructor
  · intro hapi hok hstat hjson hA hS
    simp [create_and_verify_s3account, create_and_verify_body, create_s3_account,
      create_payload_for_new_s3_account, create_payload_body_valid, wrap_payload_exc,
      create_s3_account_given, hapi, liftCT, hok, hstat, hjson, hA, hS,
      wrap_verification_exc, Except.instMonad, Bind.bind, Except.bind, Pure.pure,
      Except.pure, Functor.map, Except.map]
  · intro hpost hpatch hok hstat hjson hA hS
    simp [edit_and_verify_s3_account_user, edit_and_verify_body, create_s3_account,
      create_payload_for_new_s3_account, create_payload_body_valid, wrap_payload_exc,
      create_s3_account_given, hpost, hpatch, liftCT, getItemS, List.lookup, ACC_NAME,
      edit_s3_account_user, hok, hstat, hjson, hA, hS, wrap_verification_exc,
      SUCCESS_STATUS, Except.instMonad, Bind.bind, Except.bind, Pure.pure, Except.pure,
      Functor.map, Except.map]

/-- Claim C3 witness: against an API whose responses carry neither key, both
routines return `False` through the both-keys-absent guard. -/
theorem c3_witness :
    create_and_verify_s3account 1 cfgW 0 0 apiNoKeysW vjsonW "valid" 200 = .ok false ∧
    edit_and_verify_s3_account_user 1 cfgW 0 0 apiNoKeysW "valid" = .ok false :=
  ⟨(c3_amended 1 cfgW 0 0 apiNoKeysW vjsonW
      { ok := true, status_code := 200, json := .ok dNoKeysW }
      { ok := true, status_code := 200, json := .ok dNoKeysW } dNoKeysW).1
      rfl rfl rfl rfl (by decide) (by decide),
   (c3_amended 1 cfgW 0 0 apiNoKeysW vjsonW
      { ok := true, status_code := 200, json := .ok dNoKeysW }
      { ok := true, status_code := 200, json := .ok dNoKeysW } dNoKeysW).2
      rfl rfl rfl rfl rfl (by decide) (by decide)⟩
